import Mathlib

/-!
Verification of the type-requirement core of RCL (`src/type_req.rs`).

The development shallowly embeds the data model and the three algorithms of
that module:

* the shape projection `ReqType::to_type` / `TypeReq::to_type`,
* the static structural comparison `ReqType::check_type` /
  `TypeReq::check_type_impl` and the public entry point
  `TypeReq::check_type`,
* the dynamic value checker `TypeReq::check_value`.

Rust enums become inductive types with the same constructors (written in
lower case, and `Type` is rendered as `Ty` because `Type` is reserved in
Lean); `Rc` indirections are dropped; the inline argument loop of the
function-type comparison becomes `ReqType.check_type_args`; the inline
element and entry loops of the value checker become
`TypeReq.check_value_elems` and `TypeReq.check_value_dict`, and the
early-return on a missing requirement becomes the dispatch from
`TypeReq.check_value` to `ReqType.check_value`.

The types `Type`, `Value`, `Span`, `PathElement` and the error builder live
in modules of the repository that are not part of the given sources
(`types.rs`, `runtime.rs`, `source.rs`, `error.rs`); they are modelled from
the specification, as marked on each declaration.
-/

/-- Modelled from the spec: `source::Span` is not part of the given sources.
The spec describes it as an opaque source-location token used with copy and
equality only, so a single tag field suffices. -/
structure Span where
  id : Nat
deriving DecidableEq

/-- Modelled from the spec: `types::Type` is not part of the given sources.
The spec gives the grammar `{Null, Bool, Int, String, List(Type), Set(Type),
Dict(Type,Type), Function(seq Type, Type), Dynamic}`. Named `Ty` because
`Type` is reserved in Lean. -/
inductive Ty where
  | null
  | bool
  | int
  | string
  | list (elem : Ty)
  | set (elem : Ty)
  | dict (key value : Ty)
  | function (args : List Ty) (result : Ty)
  | dynamic

mutual

/-- Structural equality on `Ty`, embedding the derived `PartialEq` of the
Rust `Type` (the spec requires only structural pattern matching and value
equality of `Type`). -/
def Ty.beq : Ty → Ty → Bool
  | .null, .null => true
  | .bool, .bool => true
  | .int, .int => true
  | .string, .string => true
  | .list a, .list b => Ty.beq a b
  | .set a, .set b => Ty.beq a b
  | .dict ka va, .dict kb vb => Ty.beq ka kb && Ty.beq va vb
  | .function as_ ra, .function bs rb => Ty.beq_list as_ bs && Ty.beq ra rb
  | .dynamic, .dynamic => true
  | _, _ => false
termination_by a _ => 2 * sizeOf a
decreasing_by all_goals ((try simp) <;> omega)

/-- Pointwise `Ty.beq` on argument lists. -/
def Ty.beq_list : List Ty → List Ty → Bool
  | [], [] => true
  | a :: as_, b :: bs => Ty.beq a b && Ty.beq_list as_ bs
  | _, _ => false
termination_by l _ => 2 * sizeOf l
decreasing_by all_goals ((try simp) <;> omega)

end

mutual

/-- The requirement type `TypeReq` of `type_req.rs`: either no requirement,
or a required shape tagged with the reason it is required. -/
inductive TypeReq where
  | none : TypeReq
  | annotation (at_ : Span) (t : ReqType) : TypeReq
  | condition : TypeReq
  | operator (at_ : Span) (t : ReqType) : TypeReq
  | indexList : TypeReq

/-- The shape type `ReqType` of `type_req.rs`. As in the source, the
compound shapes nest `TypeReq`, not `ReqType`. -/
inductive ReqType where
  | bool : ReqType
  | int : ReqType
  | null : ReqType
  | string : ReqType
  | list (elem : TypeReq) : ReqType
  | set (elem : TypeReq) : ReqType
  | dict (kv : DictReq) : ReqType
  | function (f : FunctionReq) : ReqType

/-- The `DictReq` struct of `type_req.rs`. -/
inductive DictReq where
  | mk (key : TypeReq) (value : TypeReq) : DictReq

/-- The `FunctionReq` struct of `type_req.rs`. -/
inductive FunctionReq where
  | mk (args : List TypeReq) (result : TypeReq) : FunctionReq

end

/-- `TypeReq::req_type`: the shape required by a requirement, if any. -/
def TypeReq.req_type : TypeReq → Option ReqType
  | TypeReq.none => Option.none
  | TypeReq.annotation _ t => some t
  | TypeReq.condition => some .bool
  | TypeReq.operator _ t => some t
  | TypeReq.indexList => some .int

/-- Size bound used by the termination measures: a shape returned by
`req_type` is never bigger than the requirement it came from. -/
def TypeReq.req_type_sizeOf_le {req : TypeReq} {rt : ReqType}
    (h : req.req_type = some rt) : sizeOf rt ≤ sizeOf req := by
  cases req with
  | none => exact absurd h (by simp [TypeReq.req_type])
  | annotation sp t =>
      have ht : t = rt := by simpa [TypeReq.req_type] using h
      subst ht; simp_arith
  | condition =>
      have ht : ReqType.bool = rt := by simpa [TypeReq.req_type] using h
      subst ht; simp_arith
  | operator sp t =>
      have ht : t = rt := by simpa [TypeReq.req_type] using h
      subst ht; simp_arith
  | indexList =>
      have ht : ReqType.int = rt := by simpa [TypeReq.req_type] using h
      subst ht; simp_arith

mutual

/-- `TypeReq::to_type`: the most precise type describing any value that
satisfies the requirement; `Dynamic` when there is no requirement. -/
def TypeReq.to_type (req : TypeReq) : Ty :=
  match h : req.req_type with
  | Option.none => Ty.dynamic
  | some t => t.to_type
termination_by 2 * sizeOf req + 1
decreasing_by
  have := TypeReq.req_type_sizeOf_le h
  omega

/-- `ReqType::to_type`: the `Type` of a value when this requirement is
satisfied (the shape projection). -/
def ReqType.to_type : ReqType → Ty
  | .null => .null
  | .bool => .bool
  | .int => .int
  | .string => .string
  | .list t => .list t.to_type
  | .set t => .set t.to_type
  | .dict (.mk k v) => .dict k.to_type v.to_type
  | .function (.mk args result) => .function (TypeReq.to_type_list args) result.to_type
termination_by rt => 2 * sizeOf rt
decreasing_by all_goals ((try simp) <;> omega)

/-- The `args.iter().map(|arg_req| arg_req.to_type()).collect()` of
`ReqType::to_type`, as a recursion. -/
def TypeReq.to_type_list : List TypeReq → List Ty
  | [] => []
  | r :: rs => r.to_type :: TypeReq.to_type_list rs
termination_by l => 2 * sizeOf l
decreasing_by all_goals ((try simp) <;> omega)

end

/-- The diff type `TypeDiff` of `type_req.rs`: the result of a static
typecheck. -/
inductive TypeDiff where
  | Ok (t : Ty) : TypeDiff
  | Defer (t : Ty) : TypeDiff
  | Error (req : TypeReq) (actual : Ty) : TypeDiff
  | List (elem : TypeDiff) : TypeDiff
  | Set (elem : TypeDiff) : TypeDiff
  | Dict (key value : TypeDiff) : TypeDiff
  | Function (args : List TypeDiff) (result : TypeDiff) : TypeDiff

/-- The argument loop of the `Function`/`Function` case of
`ReqType::check_type`: each argument pair is compared by equality of the
projected shape with the actual argument type, pushing `Error` on a
difference and `Ok` otherwise. -/
def ReqType.check_type_args : List TypeReq → List Ty → List TypeDiff
  | [], _ => []
  | _, [] => []
  | arg_req :: reqs, arg_type :: types =>
      (if (arg_req.to_type.beq arg_type) = false
        then TypeDiff.Error arg_req arg_type
        else TypeDiff.Ok arg_type) :: ReqType.check_type_args reqs types

mutual

/-- `ReqType::check_type`: the static structural comparison of a shape
(with its originating requirement `req`, used to build `Error` diffs)
against an actual type. -/
def ReqType.check_type (self : ReqType) (req : TypeReq) (type_ : Ty) : TypeDiff :=
  match self, type_ with
  | _, .dynamic => TypeDiff.Defer self.to_type
  | .null, .null => TypeDiff.Ok type_
  | .bool, .bool => TypeDiff.Ok type_
  | .int, .int => TypeDiff.Ok type_
  | .string, .string => TypeDiff.Ok type_
  | .list elem_req, .list elem_type =>
      match TypeReq.check_type_impl elem_req elem_type with
      | .Ok _ => TypeDiff.Ok type_
      | .Defer t => TypeDiff.Defer (Ty.list t)
      | e => TypeDiff.List e
  | .set elem_req, .set elem_type =>
      match TypeReq.check_type_impl elem_req elem_type with
      | .Ok _ => TypeDiff.Ok type_
      | .Defer t => TypeDiff.Defer (Ty.set t)
      | e => TypeDiff.Set e
  | .dict (.mk key value), .dict key_type value_type =>
      match TypeReq.check_type_impl key key_type, TypeReq.check_type_impl value value_type with
      | .Ok _, .Ok _ => TypeDiff.Ok type_
      | .Ok tk, .Defer tv => TypeDiff.Defer (Ty.dict tk tv)
      | .Defer tk, .Ok tv => TypeDiff.Defer (Ty.dict tk tv)
      | .Defer tk, .Defer tv => TypeDiff.Defer (Ty.dict tk tv)
      | k_diff, v_diff => TypeDiff.Dict k_diff v_diff
  | .function (.mk args result), .function arg_types result_type =>
      if args.length ≠ arg_types.length then
        TypeDiff.Error req type_
      else
        match TypeReq.check_type_impl result result_type with
        | .Ok _ => TypeDiff.Ok type_
        | .Defer t => TypeDiff.Defer (Ty.function arg_types t)
        | e => TypeDiff.Function (ReqType.check_type_args args arg_types) e
  | _, _ => TypeDiff.Error req type_
termination_by 2 * sizeOf self
decreasing_by all_goals ((try simp) <;> omega)

/-- `TypeReq::check_type_impl`: `Ok(actual)` when there is no requirement,
otherwise the shape comparison. -/
def TypeReq.check_type_impl (req : TypeReq) (type_ : Ty) : TypeDiff :=
  match h : req.req_type with
  | Option.none => TypeDiff.Ok type_
  | some t => t.check_type req type_
termination_by 2 * sizeOf req + 1
decreasing_by
  have := TypeReq.req_type_sizeOf_le h
  omega

end

/-- The public outcome type `Typed` of `type_req.rs`. The first constructor
is `Type` in the source; written `type` here because `Type` is reserved in
Lean. -/
inductive Typed where
  | type (t : Ty) : Typed
  | Defer (t : Ty) : Typed

/-- Modelled from the spec: `Type::is_atom` lives in `types.rs`, which is
not part of the given sources; per the spec the atomic types are
`Null/Bool/Int/String`. -/
def Ty.is_atom : Ty → Bool
  | .null | .bool | .int | .string => true
  | _ => false

/-- Modelled from the spec: `PathElement` lives in `error.rs`, which is not
part of the given sources; the spec describes index and key path elements. -/
inductive PathElement where
  | Index (i : Nat)
  | Key (k : String)
deriving DecidableEq

/-- Modelled from the spec: the error value built by the external error
builder (`error.rs` is not part of the given sources). The builder surface
is a black box; the embedding keeps the anchoring span, the message, and
the path, which is what the specified behaviour depends on. -/
structure Error where
  span : Span
  message : String
  path : List PathElement
deriving DecidableEq

/-- Modelled from the spec: `Span::error(message)` starts an error at a
source location, with an empty path. -/
def Span.error (self : Span) (message : String) : Error :=
  { span := self, message := message, path := [] }

/-- Modelled from the spec: `Error::with_path_element` accumulates path
elements from the innermost failure site outward (the first path element is
the innermost), so each outer wrap appends at the end of the path. -/
def Error.with_path_element (self : Error) (element : PathElement) : Error :=
  { self with path := self.path ++ [element] }

/-- Modelled from the spec: `Error::with_body` attaches a rendered document
to the error; the body is presentation only and is absorbed by the black-box
builder model. -/
def Error.with_body (self : Error) : Error := self

/-- Modelled from the spec: `Error::with_note` attaches a note at a span;
presentation only, absorbed by the black-box builder model. -/
def Error.with_note (self : Error) (_at : Span) (_text : String) : Error := self

/-- Modelled from the spec: `Error::with_help` attaches help text;
presentation only, absorbed by the black-box builder model. -/
def Error.with_help (self : Error) (_text : String) : Error := self

/-- `TypeReq::add_context`: explain why the type error is caused. The
`None` and non-atomic `Operator` arms are `unreachable!()` in the source;
they are modelled as returning the error unchanged since a total Lean
function cannot abort. -/
def TypeReq.add_context (self : TypeReq) (error : Error) : Error :=
  match self with
  | TypeReq.none => error
  | TypeReq.annotation at_ _ => error.with_note at_ "The expected type is specified here."
  | TypeReq.condition =>
      error.with_help "There is no implicit conversion, conditions must be boolean."
  | TypeReq.operator at_ t =>
      if t.to_type.is_atom then
        error.with_note at_ "Expected this type due to this operator."
      else error
  | TypeReq.indexList => error.with_help "List indices must be integers."

/-- The public `TypeReq::check_type`: resolve the diff of the structural
comparison into `Typed`, or report a failure (a flat `Error` diff gets the
context of the requirement; a nested diff gets the placeholder
diagnostic). -/
def TypeReq.check_type (self : TypeReq) (at_ : Span) (type_ : Ty) : Except Error Typed :=
  match TypeReq.check_type_impl self type_ with
  | .Ok t => Except.ok (Typed.type t)
  | .Defer t => Except.ok (Typed.Defer t)
  | .Error _expected _actual =>
      Except.error (self.add_context ((at_.error "Type mismatch.").with_body))
  | _ => Except.error ((at_.error "Type mismatch in type.").with_body)

/-- Modelled from the spec: `runtime::Value` is not part of the given
sources. The spec gives the grammar `{Null, Bool, Int, String,
List(seq Value), Set(seq Value), Dict(seq (Value,Value))}`. -/
inductive Value where
  | null
  | bool (b : Bool)
  | int (n : Int)
  | string (s : String)
  | list (elems : List Value)
  | set (elems : List Value)
  | dict (kvs : List (Value × Value))

mutual

/-- `TypeReq::check_value`: dynamically check that a value fits the
required type; succeeds immediately when there is no requirement. -/
def TypeReq.check_value (req : TypeReq) (at_ : Span) (value : Value) : Except Error Unit :=
  match h : req.req_type with
  | Option.none => Except.ok ()
  | some req_type => req_type.check_value at_ value
termination_by 2 * sizeOf req + 2 + sizeOf value
decreasing_by
  have hs := TypeReq.req_type_sizeOf_le h
  omega

/-- The `match (req_type, value)` body of `TypeReq::check_value`, after the
early return on a missing requirement. -/
def ReqType.check_value (req_type : ReqType) (at_ : Span) (value : Value) : Except Error Unit :=
  match req_type, value with
  | .null, .null => Except.ok ()
  | .bool, .bool _ => Except.ok ()
  | .int, .int _ => Except.ok ()
  | .string, .string _ => Except.ok ()
  | .list elem_type, .list elems => TypeReq.check_value_elems elem_type at_ elems 0
  | .set elem_type, .set elems => TypeReq.check_value_elems elem_type at_ elems 0
  | .dict (.mk key_req value_req), .dict kvs =>
      TypeReq.check_value_dict key_req value_req at_ kvs
  | _, _ => Except.error ((at_.error "Type mismatch.").with_body)
termination_by 2 * sizeOf req_type + 1 + sizeOf value
decreasing_by all_goals ((try simp) <;> omega)

/-- The indexed element loop of the `List` and `Set` cases of
`TypeReq::check_value`: check each element, wrapping a failure with its
index. -/
def TypeReq.check_value_elems (elem_type : TypeReq) (at_ : Span) (elems : List Value) (i : Nat) :
    Except Error Unit :=
  match elems with
  | [] => Except.ok ()
  | elem :: rest =>
    match TypeReq.check_value elem_type at_ elem with
    | Except.error err => Except.error (err.with_path_element (.Index i))
    | Except.ok () => TypeReq.check_value_elems elem_type at_ rest (i + 1)
termination_by 2 * sizeOf elem_type + 3 + sizeOf elems
decreasing_by all_goals ((try simp) <;> omega)

/-- The entry loop of the `Dict` case of `TypeReq::check_value`: check the
key and the value of each entry, wrapping a failure with the placeholder
key label of the source. -/
def TypeReq.check_value_dict (key_req value_req : TypeReq) (at_ : Span)
    (kvs : List (Value × Value)) : Except Error Unit :=
  match kvs with
  | [] => Except.ok ()
  | (k, v) :: rest =>
    match TypeReq.check_value key_req at_ k with
    | Except.error err =>
        Except.error (err.with_path_element (.Key "TODO: Support any key"))
    | Except.ok () =>
      match TypeReq.check_value value_req at_ v with
      | Except.error err =>
          Except.error (err.with_path_element (.Key "TODO: Support any key"))
      | Except.ok () => TypeReq.check_value_dict key_req value_req at_ rest
termination_by 2 * (sizeOf key_req + sizeOf value_req) + 3 + sizeOf kvs
decreasing_by all_goals ((try simp) <;> omega)

end

/-- Does `dynamic` occur in a `Ty`? Specification-side predicate used to
state the claims about `Dynamic` occurrences. -/
def Ty.is_dynamic : Ty → Bool
  | .dynamic => true
  | _ => false

mutual

/-- Does `dynamic` occur anywhere inside a `Ty`? -/
def Ty.has_dynamic : Ty → Bool
  | .dynamic => true
  | .null | .bool | .int | .string => false
  | .list t => t.has_dynamic
  | .set t => t.has_dynamic
  | .dict k v => k.has_dynamic || v.has_dynamic
  | .function args result => Ty.has_dynamic_list args || result.has_dynamic
termination_by t => 2 * sizeOf t
decreasing_by all_goals ((try simp) <;> omega)

/-- Does `dynamic` occur anywhere inside a list of `Ty`? -/
def Ty.has_dynamic_list : List Ty → Bool
  | [] => false
  | t :: ts => t.has_dynamic || Ty.has_dynamic_list ts
termination_by l => 2 * sizeOf l
decreasing_by all_goals ((try simp) <;> omega)

end

/-- Specification-side predicate: the diff has no `Error` node whose actual
type is `dynamic` outside the argument list of a `Function` diff (argument
diffs are exempt). -/
def TypeDiff.dyn_error_free : TypeDiff → Bool
  | .Ok _ => true
  | .Defer _ => true
  | .Error _ actual => !actual.is_dynamic
  | .List d => d.dyn_error_free
  | .Set d => d.dyn_error_free
  | .Dict k v => k.dyn_error_free && v.dyn_error_free
  | .Function _ result => result.dyn_error_free

mutual

/-- Specification-side predicate: the diff contains, anywhere (argument
lists of `Function` diffs included), an `Error` node whose actual type is
`dynamic`. -/
def TypeDiff.has_dynamic_error : TypeDiff → Bool
  | .Ok _ => false
  | .Defer _ => false
  | .Error _ actual => actual.is_dynamic
  | .List d => d.has_dynamic_error
  | .Set d => d.has_dynamic_error
  | .Dict k v => k.has_dynamic_error || v.has_dynamic_error
  | .Function args result =>
      has_dynamic_error_list args || result.has_dynamic_error
termination_by d => 2 * sizeOf d
decreasing_by all_goals ((try simp) <;> omega)

/-- `TypeDiff.has_dynamic_error` over a list of diffs (declared outside the
`TypeDiff` namespace so that `List` keeps its usual meaning). -/
def has_dynamic_error_list : List TypeDiff → Bool
  | [] => false
  | d :: ds => d.has_dynamic_error || has_dynamic_error_list ds
termination_by l => 2 * sizeOf l
decreasing_by all_goals ((try simp) <;> omega)

end

mutual

/-- Specification-side predicate: every `TypeReq` nested in the requirement
carries a shape (no nested `TypeReq.none`). -/
def TypeReq.is_concrete : TypeReq → Bool
  | TypeReq.none => false
  | TypeReq.annotation _ t => t.is_concrete
  | TypeReq.condition => true
  | TypeReq.operator _ t => t.is_concrete
  | TypeReq.indexList => true
termination_by req => 2 * sizeOf req + 1
decreasing_by all_goals ((try simp) <;> omega)

/-- Specification-side predicate: every `TypeReq` nested in the shape
carries a shape of its own (no nested `TypeReq.none`). -/
def ReqType.is_concrete : ReqType → Bool
  | .null | .bool | .int | .string => true
  | .list t => t.is_concrete
  | .set t => t.is_concrete
  | .dict (.mk k v) => k.is_concrete && v.is_concrete
  | .function (.mk args result) => TypeReq.is_concrete_list args && result.is_concrete
termination_by rt => 2 * sizeOf rt
decreasing_by all_goals ((try simp) <;> omega)

/-- `TypeReq.is_concrete` over a list of requirements. -/
def TypeReq.is_concrete_list : List TypeReq → Bool
  | [] => true
  | r :: rs => r.is_concrete && TypeReq.is_concrete_list rs
termination_by l => 2 * sizeOf l
decreasing_by all_goals ((try simp) <;> omega)

end

mutual

theorem Ty.beq_refl : ∀ t : Ty, Ty.beq t t = true
  | .null => by simp [Ty.beq]
  | .bool => by simp [Ty.beq]
  | .int => by simp [Ty.beq]
  | .string => by simp [Ty.beq]
  | .list a => by simp [Ty.beq, Ty.beq_refl a]
  | .set a => by simp [Ty.beq, Ty.beq_refl a]
  | .dict k v => by simp [Ty.beq, Ty.beq_refl k, Ty.beq_refl v]
  | .function as_ r => by simp [Ty.beq, Ty.beq_refl r, Ty.beq_list_refl as_]
  | .dynamic => by simp [Ty.beq]
termination_by t => 2 * sizeOf t
decreasing_by all_goals ((try simp) <;> omega)

theorem Ty.beq_list_refl : ∀ l : List Ty, Ty.beq_list l l = true
  | [] => by simp [Ty.beq_list]
  | t :: ts => by simp [Ty.beq_list, Ty.beq_refl t, Ty.beq_list_refl ts]
termination_by l => 2 * sizeOf l
decreasing_by all_goals ((try simp) <;> omega)

end

theorem TypeReq.to_type_none {req : TypeReq} (h : req.req_type = Option.none) :
    req.to_type = Ty.dynamic := by
  rw [TypeReq.to_type]
  split
  · rfl
  · next t heq => rw [h] at heq; cases heq

theorem TypeReq.to_type_some {req : TypeReq} {t : ReqType} (h : req.req_type = some t) :
    req.to_type = t.to_type := by
  rw [TypeReq.to_type]
  split
  · next heq => rw [h] at heq; cases heq
  · next t2 heq => rw [h] at heq; cases heq; rfl

theorem TypeReq.to_type_list_length :
    ∀ l : List TypeReq, (TypeReq.to_type_list l).length = l.length
  | [] => by simp [TypeReq.to_type_list]
  | r :: rs => by simp [TypeReq.to_type_list, TypeReq.to_type_list_length rs]

theorem TypeReq.check_type_impl_none {req : TypeReq} (h : req.req_type = Option.none)
    (type_ : Ty) : TypeReq.check_type_impl req type_ = TypeDiff.Ok type_ := by
  rw [TypeReq.check_type_impl]
  split
  · rfl
  · next t heq => rw [h] at heq; cases heq

theorem TypeReq.check_type_impl_some {req : TypeReq} {t : ReqType} (h : req.req_type = some t)
    (type_ : Ty) : TypeReq.check_type_impl req type_ = t.check_type req type_ := by
  rw [TypeReq.check_type_impl]
  split
  · next heq => rw [h] at heq; cases heq
  · next t2 heq => rw [h] at heq; cases heq; rfl

theorem TypeReq.check_value_none {req : TypeReq} (h : req.req_type = Option.none)
    (at_ : Span) (value : Value) : TypeReq.check_value req at_ value = Except.ok () := by
  rw [TypeReq.check_value]
  split
  · rfl
  · next t heq => rw [h] at heq; cases heq

theorem TypeReq.check_value_some {req : TypeReq} {t : ReqType} (h : req.req_type = some t)
    (at_ : Span) (value : Value) :
    TypeReq.check_value req at_ value = t.check_value at_ value := by
  rw [TypeReq.check_value]
  split
  · next heq => rw [h] at heq; cases heq
  · next t2 heq => rw [h] at heq; cases heq; rfl

mutual

theorem TypeReq.check_type_impl_self (req : TypeReq) :
    TypeReq.check_type_impl req req.to_type = TypeDiff.Ok req.to_type := by
  cases hrt : req.req_type with
  | none => rw [TypeReq.check_type_impl_none hrt]
  | some t =>
      have hs := TypeReq.req_type_sizeOf_le hrt
      rw [TypeReq.to_type_some hrt, TypeReq.check_type_impl_some hrt,
        ReqType.check_type_self t req]
termination_by 2 * sizeOf req + 1
decreasing_by omega

theorem ReqType.check_type_self (rt : ReqType) (req : TypeReq) :
    ReqType.check_type rt req rt.to_type = TypeDiff.Ok rt.to_type := by
  cases rt with
  | bool => simp [ReqType.check_type, ReqType.to_type]
  | int => simp [ReqType.check_type, ReqType.to_type]
  | null => simp [ReqType.check_type, ReqType.to_type]
  | string => simp [ReqType.check_type, ReqType.to_type]
  | list e => simp [ReqType.check_type, ReqType.to_type, TypeReq.check_type_impl_self e]
  | set e => simp [ReqType.check_type, ReqType.to_type, TypeReq.check_type_impl_self e]
  | dict kv =>
      cases kv with
      | mk k v =>
          simp [ReqType.check_type, ReqType.to_type, TypeReq.check_type_impl_self k,
            TypeReq.check_type_impl_self v]
  | function f =>
      cases f with
      | mk args result =>
          simp [ReqType.check_type, ReqType.to_type, TypeReq.to_type_list_length,
            TypeReq.check_type_impl_self result]
termination_by 2 * sizeOf rt
decreasing_by all_goals ((try simp) <;> omega)

end

mutual

theorem TypeReq.check_type_impl_dyn_error_free (req : TypeReq) (type_ : Ty) :
    (TypeReq.check_type_impl req type_).dyn_error_free = true := by
  cases hrt : req.req_type with
  | none => rw [TypeReq.check_type_impl_none hrt]; rfl
  | some t =>
      have hs := TypeReq.req_type_sizeOf_le hrt
      rw [TypeReq.check_type_impl_some hrt]
      exact ReqType.check_type_dyn_error_free t req type_
termination_by 2 * sizeOf req + 1
decreasing_by omega

theorem ReqType.check_type_dyn_error_free (rt : ReqType) (req : TypeReq) (type_ : Ty) :
    (ReqType.check_type rt req type_).dyn_error_free = true := by
  cases rt with
  | bool => cases type_ <;> simp [ReqType.check_type, TypeDiff.dyn_error_free, Ty.is_dynamic]
  | int => cases type_ <;> simp [ReqType.check_type, TypeDiff.dyn_error_free, Ty.is_dynamic]
  | null => cases type_ <;> simp [ReqType.check_type, TypeDiff.dyn_error_free, Ty.is_dynamic]
  | string => cases type_ <;> simp [ReqType.check_type, TypeDiff.dyn_error_free, Ty.is_dynamic]
  | list e =>
      cases type_ <;>
        try simp [ReqType.check_type, TypeDiff.dyn_error_free, Ty.is_dynamic]
      case list et =>
        have ih := TypeReq.check_type_impl_dyn_error_free e et
        cases hd : TypeReq.check_type_impl e et <;>
          simp_all [ReqType.check_type, TypeDiff.dyn_error_free, Ty.is_dynamic]
  | set e =>
      cases type_ <;>
        try simp [ReqType.check_type, TypeDiff.dyn_error_free, Ty.is_dynamic]
      case set et =>
        have ih := TypeReq.check_type_impl_dyn_error_free e et
        cases hd : TypeReq.check_type_impl e et <;>
          simp_all [ReqType.check_type, TypeDiff.dyn_error_free, Ty.is_dynamic]
  | dict kv =>
      cases kv with
      | mk k v =>
          cases type_ <;>
            try simp [ReqType.check_type, TypeDiff.dyn_error_free, Ty.is_dynamic]
          case dict kt vt =>
            have ihk := TypeReq.check_type_impl_dyn_error_free k kt
            have ihv := TypeReq.check_type_impl_dyn_error_free v vt
            cases hk : TypeReq.check_type_impl k kt <;>
              cases hv : TypeReq.check_type_impl v vt <;>
                simp_all [ReqType.check_type, TypeDiff.dyn_error_free, Ty.is_dynamic]
  | function f =>
      cases f with
      | mk args result =>
          cases type_ <;>
            try simp [ReqType.check_type, TypeDiff.dyn_error_free, Ty.is_dynamic]
          case function arg_types result_type =>
            by_cases hlen : args.length = arg_types.length
            · have ihr := TypeReq.check_type_impl_dyn_error_free result result_type
              cases hr : TypeReq.check_type_impl result result_type <;>
                simp_all [ReqType.check_type, TypeDiff.dyn_error_free, Ty.is_dynamic]
            · simp [ReqType.check_type, hlen, TypeDiff.dyn_error_free, Ty.is_dynamic]
termination_by 2 * sizeOf rt
decreasing_by all_goals ((try simp) <;> omega)

end

mutual

theorem TypeReq.concrete_to_type_no_dynamic :
    ∀ (req : TypeReq), req.is_concrete = true → (req.to_type).has_dynamic = false
  | TypeReq.none, h => by simp [TypeReq.is_concrete] at h
  | TypeReq.annotation sp t, h => by
      have ht : t.is_concrete = true := by simpa [TypeReq.is_concrete] using h
      rw [TypeReq.to_type_some (show TypeReq.req_type (TypeReq.annotation sp t) = some t from rfl)]
      exact ReqType.concrete_shape_to_type_no_dynamic t ht
  | TypeReq.condition, _ => by
      rw [TypeReq.to_type_some (show TypeReq.req_type TypeReq.condition = some .bool from rfl)]
      simp [ReqType.to_type, Ty.has_dynamic]
  | TypeReq.operator sp t, h => by
      have ht : t.is_concrete = true := by simpa [TypeReq.is_concrete] using h
      rw [TypeReq.to_type_some (show TypeReq.req_type (TypeReq.operator sp t) = some t from rfl)]
      exact ReqType.concrete_shape_to_type_no_dynamic t ht
  | TypeReq.indexList, _ => by
      rw [TypeReq.to_type_some (show TypeReq.req_type TypeReq.indexList = some .int from rfl)]
      simp [ReqType.to_type, Ty.has_dynamic]
termination_by req => 2 * sizeOf req + 1
decreasing_by all_goals ((try simp) <;> omega)

theorem ReqType.concrete_shape_to_type_no_dynamic :
    ∀ (rt : ReqType), rt.is_concrete = true → (rt.to_type).has_dynamic = false
  | .bool, _ => by simp [ReqType.to_type, Ty.has_dynamic]
  | .int, _ => by simp [ReqType.to_type, Ty.has_dynamic]
  | .null, _ => by simp [ReqType.to_type, Ty.has_dynamic]
  | .string, _ => by simp [ReqType.to_type, Ty.has_dynamic]
  | .list e, h => by
      have he : e.is_concrete = true := by simpa [ReqType.is_concrete] using h
      simp [ReqType.to_type, Ty.has_dynamic, TypeReq.concrete_to_type_no_dynamic e he]
  | .set e, h => by
      have he : e.is_concrete = true := by simpa [ReqType.is_concrete] using h
      simp [ReqType.to_type, Ty.has_dynamic, TypeReq.concrete_to_type_no_dynamic e he]
  | .dict (.mk k v), h => by
      have hkv : k.is_concrete = true ∧ v.is_concrete = true := by
        simpa [ReqType.is_concrete] using h
      simp [ReqType.to_type, Ty.has_dynamic,
        TypeReq.concrete_to_type_no_dynamic k hkv.1,
        TypeReq.concrete_to_type_no_dynamic v hkv.2]
  | .function (.mk args result), h => by
      have hfr : TypeReq.is_concrete_list args = true ∧ result.is_concrete = true := by
        simpa [ReqType.is_concrete] using h
      simp [ReqType.to_type, Ty.has_dynamic,
        TypeReq.concrete_to_type_no_dynamic_list args hfr.1,
        TypeReq.concrete_to_type_no_dynamic result hfr.2]
termination_by rt => 2 * sizeOf rt
decreasing_by all_goals ((try simp) <;> omega)

theorem TypeReq.concrete_to_type_no_dynamic_list :
    ∀ (l : List TypeReq), TypeReq.is_concrete_list l = true →
      Ty.has_dynamic_list (TypeReq.to_type_list l) = false
  | [], _ => by simp [TypeReq.to_type_list, Ty.has_dynamic_list]
  | r :: rs, h => by
      have hrr : r.is_concrete = true ∧ TypeReq.is_concrete_list rs = true := by
        simpa [TypeReq.is_concrete_list] using h
      simp [TypeReq.to_type_list, Ty.has_dynamic_list,
        TypeReq.concrete_to_type_no_dynamic r hrr.1,
        TypeReq.concrete_to_type_no_dynamic_list rs hrr.2]
termination_by l => 2 * sizeOf l
decreasing_by all_goals ((try simp) <;> omega)

end

theorem TypeReq.check_value_elems_first_error (e : TypeReq) (at_ : Span) :
    ∀ (elems : List Value) (i0 i : Nat) (err : Error) (hi : i < elems.length),
      (∀ j (hj : j < i), TypeReq.check_value e at_ (elems.get ⟨j, hj.trans hi⟩) = Except.ok ()) →
      TypeReq.check_value e at_ (elems.get ⟨i, hi⟩) = Except.error err →
      TypeReq.check_value_elems e at_ elems i0
        = Except.error (err.with_path_element (.Index (i0 + i)))
  | [], i0, i, err, hi, _, _ => absurd hi (by simp)
  | v :: rest, i0, 0, err, hi, hok, herr => by
      simp only [List.get] at herr
      simp [TypeReq.check_value_elems, herr]
  | v :: rest, i0, i + 1, err, hi, hok, herr => by
      have h0 : TypeReq.check_value e at_ v = Except.ok () := by
        have h := hok 0 (Nat.succ_pos i)
        simpa using h
      have hi2 : i < rest.length := by
        have := Nat.lt_of_succ_lt_succ hi
        simpa using this
      have ih := TypeReq.check_value_elems_first_error e at_ rest (i0 + 1) i err hi2
        (fun j hj => by
          have h := hok (j + 1) (Nat.succ_lt_succ hj)
          simpa using h)
        (by simpa using herr)
      have harith : i0 + 1 + i = i0 + (i + 1) := by omega
      simp only [TypeReq.check_value_elems, h0]
      rw [ih, harith]

/-- C1: the claim predicts that with equal argument counts and some
argument pair whose projected shapes are unequal, the comparison returns a
`Function` diff carrying the argument diffs, never `Ok` or `Defer`. The
code contradicts this: this theorem evaluates the comparison at the failing
input — requirement `(Int) -> Int` against actual `(String) -> Int`, whose
single argument pair differs — and the result is `Ok` of the actual type,
because the argument diffs are dropped whenever the result check is `Ok`
(or `Defer`). -/
theorem c1_code_bug_arg_diffs_dropped :
    TypeReq.to_type (TypeReq.annotation ⟨0⟩ .int) ≠ Ty.string ∧
    TypeReq.check_type_impl
        (TypeReq.annotation ⟨0⟩ (.function
          (.mk [TypeReq.annotation ⟨0⟩ .int] (TypeReq.annotation ⟨0⟩ .int))))
        (.function [.string] .int)
      = TypeDiff.Ok (.function [.string] .int) := by
  constructor
  · simp [TypeReq.to_type, TypeReq.req_type, ReqType.to_type]
  · simp [TypeReq.check_type_impl, TypeReq.req_type, ReqType.check_type, ReqType.to_type,
      ReqType.check_type_args, TypeReq.to_type, TypeReq.to_type_list, Ty.beq]

/-- C2 (amended): for every requirement and every actual type, the diff
produced by the static comparison has no `Error` node whose actual type is
`Dynamic` outside the argument list of a `Function` diff: every position
the requirement inspects through a recursive check (top level, list/set
element, dict key/value, function result) yields `Defer` — or `Ok` when
the nested requirement is `None` — on a `Dynamic` actual, never `Error`;
only function-argument positions, which are compared by projected-shape
equality, are exempt. -/
theorem c2_amended_no_dynamic_error_outside_args (req : TypeReq) (type_ : Ty) :
    (TypeReq.check_type_impl req type_).dyn_error_free = true :=
  TypeReq.check_type_impl_dyn_error_free req type_

/-- C2 (counterexample): at a function-argument position whose actual type
is `Dynamic`, the comparison does produce an `Error` diff, contrary to the
claim: requirement `(Int) -> Int` against actual `(Dynamic) -> String`
yields a `Function` diff whose argument list contains
`Error(Annotation(Int), Dynamic)`. -/
theorem c2_counterexample_dynamic_error_in_arg :
    TypeReq.check_type_impl
        (TypeReq.annotation ⟨0⟩ (.function
          (.mk [TypeReq.annotation ⟨0⟩ .int] (TypeReq.annotation ⟨0⟩ .int))))
        (.function [.dynamic] .string)
      = TypeDiff.Function [.Error (TypeReq.annotation ⟨0⟩ .int) .dynamic]
          (.Error (TypeReq.annotation ⟨0⟩ .int) .string) ∧
    TypeDiff.has_dynamic_error
        (TypeReq.check_type_impl
          (TypeReq.annotation ⟨0⟩ (.function
            (.mk [TypeReq.annotation ⟨0⟩ .int] (TypeReq.annotation ⟨0⟩ .int))))
          (.function [.dynamic] .string))
      = true := by
  constructor
  · simp [TypeReq.check_type_impl, TypeReq.req_type, ReqType.check_type, ReqType.to_type,
      ReqType.check_type_args, TypeReq.to_type, TypeReq.to_type_list, Ty.beq]
  · simp [TypeReq.check_type_impl, TypeReq.req_type, ReqType.check_type, ReqType.to_type,
      ReqType.check_type_args, TypeReq.to_type, TypeReq.to_type_list, Ty.beq,
      TypeDiff.has_dynamic_error, has_dynamic_error_list, Ty.is_dynamic]

/-- C3 (amended): for every requirement other than `TypeReq::None`,
statically comparing it against the actual type `Dynamic` yields `Defer`
carrying the projected shape of the requirement — never `Ok`, never
`Error`; `TypeReq::None` instead yields `Ok(Dynamic)`. -/
theorem c3_amended_defer_on_dynamic (req : TypeReq) (h : req ≠ TypeReq.none) :
    TypeReq.check_type_impl req Ty.dynamic = TypeDiff.Defer req.to_type := by
  cases hrt : req.req_type with
  | none =>
      cases req with
      | none => exact absurd rfl h
      | annotation sp t => simp [TypeReq.req_type] at hrt
      | condition => simp [TypeReq.req_type] at hrt
      | operator sp t => simp [TypeReq.req_type] at hrt
      | indexList => simp [TypeReq.req_type] at hrt
  | some t =>
      rw [TypeReq.check_type_impl_some hrt, TypeReq.to_type_some hrt]
      cases t <;> simp [ReqType.check_type]

/-- C3 (witness): the amended theorem applied to the `Condition`
requirement, which compares against `Dynamic` to `Defer(Bool)`. -/
theorem c3_witness :
    TypeReq.condition ≠ TypeReq.none ∧
    TypeReq.check_type_impl TypeReq.condition Ty.dynamic
      = TypeDiff.Defer (TypeReq.to_type TypeReq.condition) :=
  ⟨by simp, c3_amended_defer_on_dynamic .condition (by simp)⟩

/-- C3 (counterexample): the claim quantifies over all `TypeReq` variants
and predicts `Defer`, never `Ok`; but for `TypeReq::None` the comparison
against `Dynamic` returns `Ok(Dynamic)`, not a `Defer`. -/
theorem c3_counterexample_none_yields_ok :
    TypeReq.check_type_impl TypeReq.none Ty.dynamic = TypeDiff.Ok Ty.dynamic ∧
    TypeReq.to_type TypeReq.none = Ty.dynamic ∧
    TypeDiff.Ok Ty.dynamic ≠ TypeDiff.Defer Ty.dynamic := by
  refine ⟨?_, ?_, by simp⟩
  · simp [TypeReq.check_type_impl, TypeReq.req_type]
  · simp [TypeReq.to_type, TypeReq.req_type]

/-- C4 (amended): the `ReqType` grammar itself has no `Dynamic` variant,
but the compound shapes nest `TypeReq`, and `TypeReq::None` projects to
`Dynamic`; the projection of a shape contains no `Dynamic` at any position
provided every nested `TypeReq` carries a requirement (no nested
`TypeReq::None`). -/
theorem c4_amended_concrete_projection (rt : ReqType) (h : rt.is_concrete = true) :
    Ty.has_dynamic rt.to_type = false :=
  ReqType.concrete_shape_to_type_no_dynamic rt h

/-- C4 (witness): the amended theorem applied to `List(Annotation(Int))`,
a fully concrete shape whose projection `List(Int)` has no `Dynamic`. -/
theorem c4_witness :
    ReqType.is_concrete (ReqType.list (TypeReq.annotation ⟨0⟩ .int)) = true ∧
    Ty.has_dynamic (ReqType.to_type (ReqType.list (TypeReq.annotation ⟨0⟩ .int))) = false :=
  ⟨by simp [ReqType.is_concrete, TypeReq.is_concrete],
   c4_amended_concrete_projection _ (by simp [ReqType.is_concrete, TypeReq.is_concrete])⟩

/-- C4 (counterexample): the shape `List(None)` — legal, since list
elements are `TypeReq`s — projects to `List(Dynamic)`, so the projection of
a `ReqType` can contain `Dynamic`, contrary to the claim. -/
theorem c4_counterexample_projection_has_dynamic :
    Ty.has_dynamic (ReqType.to_type (ReqType.list TypeReq.none)) = true := by
  simp [ReqType.to_type, TypeReq.to_type, TypeReq.req_type, Ty.has_dynamic]

/-- C5: for every requirement whose projection contains no `Dynamic`,
statically comparing the requirement against its own projection yields
`Ok` (of that very projection). -/
theorem c5_roundtrip_ok (req : TypeReq) (h : Ty.has_dynamic req.to_type = false) :
    TypeReq.check_type_impl req req.to_type = TypeDiff.Ok req.to_type :=
  TypeReq.check_type_impl_self req

/-- C5 (witness): the round-trip theorem applied to the `Condition`
requirement, whose projection is `Bool`. -/
theorem c5_witness :
    Ty.has_dynamic (TypeReq.to_type TypeReq.condition) = false ∧
    TypeReq.check_type_impl TypeReq.condition (TypeReq.to_type TypeReq.condition)
      = TypeDiff.Ok (TypeReq.to_type TypeReq.condition) :=
  ⟨by simp [TypeReq.to_type, TypeReq.req_type, ReqType.to_type, Ty.has_dynamic],
   c5_roundtrip_ok .condition
     (by simp [TypeReq.to_type, TypeReq.req_type, ReqType.to_type, Ty.has_dynamic])⟩

/-- C6: a function requirement compared against an actual function type
with a different argument count yields the flat `Error(req, actual)`
immediately — it never recurses and never defers, whatever `Dynamic`
components the actual type contains (the actual is a `Function`
constructor, so the `Dynamic` arm of the comparison cannot fire). -/
theorem c6_function_arity_mismatch (args : List TypeReq) (result : TypeReq) (req : TypeReq)
    (arg_types : List Ty) (result_type : Ty) (h : args.length ≠ arg_types.length) :
    ReqType.check_type (.function (.mk args result)) req (.function arg_types result_type)
      = TypeDiff.Error req (.function arg_types result_type) := by
  simp [ReqType.check_type, h]

/-- C6 (witness): arity 0 against arity 1 with a `Dynamic` argument in the
actual type still yields the flat `Error`. -/
theorem c6_witness :
    ([] : List TypeReq).length ≠ ([Ty.dynamic] : List Ty).length ∧
    ReqType.check_type (.function (.mk [] .condition)) .condition (.function [.dynamic] .bool)
      = TypeDiff.Error .condition (.function [.dynamic] .bool) :=
  ⟨by simp, c6_function_arity_mismatch [] .condition .condition [.dynamic] .bool (by simp)⟩

/-- C7: in a dict-against-dict comparison, any combination of `Ok`/`Defer`
key and value outcomes short of both-`Ok` yields `Defer` — never `Error` —
carrying the reconstructed dict type built from the type each branch
resolved to. -/
theorem c7_dict_ok_defer_combination (kq vq req : TypeReq) (kt vt tk tv : Ty)
    (hk : TypeReq.check_type_impl kq kt = TypeDiff.Ok tk ∨
          TypeReq.check_type_impl kq kt = TypeDiff.Defer tk)
    (hv : TypeReq.check_type_impl vq vt = TypeDiff.Ok tv ∨
          TypeReq.check_type_impl vq vt = TypeDiff.Defer tv)
    (hno : ¬(TypeReq.check_type_impl kq kt = TypeDiff.Ok tk ∧
             TypeReq.check_type_impl vq vt = TypeDiff.Ok tv)) :
    ReqType.check_type (.dict (.mk kq vq)) req (.dict kt vt)
      = TypeDiff.Defer (.dict tk tv) := by
  rcases hk with hk | hk <;> rcases hv with hv | hv
  · exact absurd ⟨hk, hv⟩ hno
  all_goals simp [ReqType.check_type, hk, hv]

/-- C7 (witness): requirement `Dict(String, Int)` against actual
`Dict(String, Dynamic)`: the key branch is `Ok(String)`, the value branch
is `Defer(Int)`, and the comparison yields `Defer(Dict(String, Int))`. -/
theorem c7_witness :
    (TypeReq.check_type_impl (TypeReq.annotation ⟨0⟩ .string) .string = TypeDiff.Ok .string ∨
     TypeReq.check_type_impl (TypeReq.annotation ⟨0⟩ .string) .string
       = TypeDiff.Defer .string) ∧
    (TypeReq.check_type_impl (TypeReq.annotation ⟨0⟩ .int) .dynamic = TypeDiff.Ok .int ∨
     TypeReq.check_type_impl (TypeReq.annotation ⟨0⟩ .int) .dynamic = TypeDiff.Defer .int) ∧
    ¬(TypeReq.check_type_impl (TypeReq.annotation ⟨0⟩ .string) .string = TypeDiff.Ok .string ∧
      TypeReq.check_type_impl (TypeReq.annotation ⟨0⟩ .int) .dynamic = TypeDiff.Ok .int) ∧
    ReqType.check_type
        (.dict (.mk (TypeReq.annotation ⟨0⟩ .string) (TypeReq.annotation ⟨0⟩ .int)))
        .condition (.dict .string .dynamic)
      = TypeDiff.Defer (.dict .string .int) := by
  have hk : TypeReq.check_type_impl (TypeReq.annotation ⟨0⟩ .string) .string
      = TypeDiff.Ok .string := by
    simp [TypeReq.check_type_impl, TypeReq.req_type, ReqType.check_type]
  have hv : TypeReq.check_type_impl (TypeReq.annotation ⟨0⟩ .int) .dynamic
      = TypeDiff.Defer .int := by
    simp [TypeReq.check_type_impl, TypeReq.req_type, ReqType.check_type, ReqType.to_type]
  refine ⟨Or.inl hk, Or.inr hv, ?_, ?_⟩
  · intro hc
    rw [hv] at hc
    exact absurd hc.2 (by simp)
  · exact c7_dict_ok_defer_combination _ _ _ _ _ _ _ (Or.inl hk) (Or.inr hv)
      (fun hc => absurd (hv ▸ hc.2) (by simp))

/-- C8: the `None` requirement can never produce an error: the public
static check returns `Typed::Type(actual)` for every actual type, and the
dynamic value check returns success for every runtime value. -/
theorem c8_none_never_errors (sp sp2 : Span) (t : Ty) (v : Value) :
    TypeReq.check_type TypeReq.none sp t = Except.ok (Typed.type t) ∧
    TypeReq.check_value TypeReq.none sp2 v = Except.ok () := by
  constructor
  · simp [TypeReq.check_type, TypeReq.check_type_impl, TypeReq.req_type]
  · simp [TypeReq.check_value, TypeReq.req_type]

/-- C9 (amended): for a list requirement `List(e)` and a list value whose
element at position `i` is the first (in list order) to violate `e` — all
earlier elements satisfy it — the dynamic check fails, and the resulting
error is the element's own failure with `Index(i)` appended to its path:
the path accumulates index elements from the innermost failure site
outward, so `Index(i)` is the first (innermost) path element exactly when
the element's failure is a direct mismatch with an empty path of its own,
and comes later when the violation lies deeper inside the element. -/
theorem c9_list_first_error_path (req e : TypeReq) (at_ : Span) (elems : List Value)
    (i : Nat) (err : Error) (hreq : req.req_type = some (ReqType.list e))
    (hi : i < elems.length)
    (hok : ∀ j (hj : j < i), TypeReq.check_value e at_ (elems.get ⟨j, hj.trans hi⟩) = Except.ok ())
    (herr : TypeReq.check_value e at_ (elems.get ⟨i, hi⟩) = Except.error err) :
    TypeReq.check_value req at_ (Value.list elems)
      = Except.error (err.with_path_element (PathElement.Index i)) := by
  rw [TypeReq.check_value_some hreq]
  have h := TypeReq.check_value_elems_first_error e at_ elems 0 i err hi hok herr
  simpa [ReqType.check_value] using h

/-- C9 (witness): checking `List(Int)` against `[1, true]`: element 1 is
the first violator, its failure has an empty path, and the overall failure
carries the path `[Index 1]`. -/
theorem c9_witness :
    TypeReq.req_type (TypeReq.annotation ⟨0⟩ (.list (TypeReq.annotation ⟨0⟩ .int)))
      = some (ReqType.list (TypeReq.annotation ⟨0⟩ .int)) ∧
    (1 : Nat) < ([Value.int 1, Value.bool true] : List Value).length ∧
    TypeReq.check_value (TypeReq.annotation ⟨0⟩ .int) ⟨0⟩
        (([Value.int 1, Value.bool true] : List Value).get ⟨1, by simp⟩)
      = Except.error ⟨⟨0⟩, "Type mismatch.", []⟩ ∧
    TypeReq.check_value (TypeReq.annotation ⟨0⟩ (.list (TypeReq.annotation ⟨0⟩ .int))) ⟨0⟩
        (Value.list [Value.int 1, Value.bool true])
      = Except.error
          (Error.with_path_element ⟨⟨0⟩, "Type mismatch.", []⟩ (PathElement.Index 1)) := by
  refine ⟨rfl, by simp, ?herr, ?main⟩
  case herr =>
    simp [TypeReq.check_value, ReqType.check_value, TypeReq.req_type, Span.error,
      Error.with_body]
  case main =>
    refine c9_list_first_error_path _ _ _ _ 1 _ rfl (by simp) ?_ ?_
    · intro j hj
      have hj0 : j = 0 := by omega
      subst hj0
      simp [TypeReq.check_value, ReqType.check_value, TypeReq.req_type]
    · simp [TypeReq.check_value, ReqType.check_value, TypeReq.req_type, Span.error,
        Error.with_body]

/-- C9 (counterexample): the claim predicts that the first path element
always identifies the index of the first violating element. Checking
`List(List(Int))` against `[[], [true]]`, the first violating element is at
index 1 (index 0 passes, as the second conjunct shows), yet the failure's
path is `[Index 0, Index 1]` — the first (innermost) element is the index
inside the nested list, not `Index 1`. -/
theorem c9_counterexample_nested_violation :
    TypeReq.check_value
        (TypeReq.annotation ⟨0⟩
          (.list (TypeReq.annotation ⟨0⟩ (.list (TypeReq.annotation ⟨0⟩ .int))))) ⟨0⟩
        (Value.list [Value.list [], Value.list [Value.bool true]])
      = Except.error ⟨⟨0⟩, "Type mismatch.", [PathElement.Index 0, PathElement.Index 1]⟩ ∧
    TypeReq.check_value (TypeReq.annotation ⟨0⟩ (.list (TypeReq.annotation ⟨0⟩ .int))) ⟨0⟩
        (Value.list [])
      = Except.ok () ∧
    ([PathElement.Index 0, PathElement.Index 1] : List PathElement).head?
      ≠ some (PathElement.Index 1) := by
  refine ⟨?_, ?_, by decide⟩
  · simp [TypeReq.check_value, ReqType.check_value, TypeReq.check_value_elems,
      TypeReq.req_type, Span.error, Error.with_body, Error.with_path_element]
  · simp [TypeReq.check_value, ReqType.check_value, TypeReq.check_value_elems,
      TypeReq.req_type]

/-- C10: the dynamic value check accepts every empty compound value
vacuously, however restrictive the element, key and value requirements:
a `List` requirement against an empty list value, a `Set` requirement
against an empty set value, and a `Dict` requirement against an empty dict
value all succeed. -/
theorem c10_empty_compound_values (lreq sreq dreq e k v : TypeReq) (at_ : Span)
    (hl : lreq.req_type = some (ReqType.list e))
    (hs : sreq.req_type = some (ReqType.set e))
    (hd : dreq.req_type = some (ReqType.dict (DictReq.mk k v))) :
    TypeReq.check_value lreq at_ (Value.list []) = Except.ok () ∧
    TypeReq.check_value sreq at_ (Value.set []) = Except.ok () ∧
    TypeReq.check_value dreq at_ (Value.dict []) = Except.ok () := by
  refine ⟨?_, ?_, ?_⟩
  · rw [TypeReq.check_value_some hl]
    simp [ReqType.check_value, TypeReq.check_value_elems]
  · rw [TypeReq.check_value_some hs]
    simp [ReqType.check_value, TypeReq.check_value_elems]
  · rw [TypeReq.check_value_some hd]
    simp [ReqType.check_value, TypeReq.check_value_dict]

/-- C10 (witness): the theorem applied to annotated `List(Condition)`,
`Set(Condition)` and `Dict(Condition, Condition)` requirements and the
empty list, set and dict values. -/
theorem c10_witness :
    TypeReq.req_type (TypeReq.annotation ⟨0⟩ (.list .condition))
      = some (ReqType.list .condition) ∧
    TypeReq.req_type (TypeReq.annotation ⟨0⟩ (.set .condition))
      = some (ReqType.set .condition) ∧
    TypeReq.req_type (TypeReq.annotation ⟨0⟩ (.dict (DictReq.mk .condition .condition)))
      = some (ReqType.dict (DictReq.mk .condition .condition)) ∧
    (TypeReq.check_value (TypeReq.annotation ⟨0⟩ (.list .condition)) ⟨0⟩ (Value.list [])
        = Except.ok () ∧
     TypeReq.check_value (TypeReq.annotation ⟨0⟩ (.set .condition)) ⟨0⟩ (Value.set [])
        = Except.ok () ∧
     TypeReq.check_value (TypeReq.annotation ⟨0⟩ (.dict (DictReq.mk .condition .condition)))
        ⟨0⟩ (Value.dict []) = Except.ok ()) :=
  ⟨rfl, rfl, rfl,
   c10_empty_compound_values _ _ _ .condition .condition .condition ⟨0⟩ rfl rfl rfl⟩
